import Mathlib

/-!
Verification development for the ChatterBot response-selection and learning
engine.  The Engine Facade (`ChatBot.get_response`, `ChatBot.learn_response`,
`ChatBot.get_or_create_default_conversation`, the constructor) is embedded
from `src/chatterbot/chatterbot.py`.  The collaborators that file imports but
whose code is not part of the excerpt (the storage adapter, the
multi-strategy logic adapter, the conversation manager, the no-knowledge
fallback strategy) are modelled from the specification, as marked on each
definition.  Machine-level concerns (dynamic class loading, logging, NLTK
corpus downloads, JSON config files) are outside the modelled core.
-/

namespace Chatter

/-- Response links of a statement: each entry pairs the text of a prior
statement with the occurrence count of that specific pairing (spec §3). -/
abbrev Links := List (String × Nat)

/-- Modelled from the spec: a Statement as the in-memory object the facade
manipulates — identity over `text`, with `in_response_to` the set of prior
texts it was produced in reply to, each with its pairing count (spec §3).
The statement/response classes live in the storage package, which is not in
the excerpt. -/
structure Statement where
  text : String
  in_response_to : Links
deriving Repr, DecidableEq

/-- Modelled from the spec: a persisted statement record in the Statement
Store, carrying its occurrence count and response-link counts (spec §3). -/
structure StoredStatement where
  text : String
  occurrence : Nat
  links : Links
deriving Repr, DecidableEq

/-- Modelled from the spec: a conversation is an ordered, session-scoped
sequence of statements, identified by a numeric id (spec §3, §4.4). -/
structure Conversation where
  id : Nat
  statements : List Statement
deriving Repr, DecidableEq

/-- Modelled from the spec: the observable state of the Statement Store —
the persisted statement records, the persisted conversations, and the id
counter used for fresh conversations.  The storage adapter implementation is
not part of the excerpt; only its contract is (spec §2, §6). -/
structure Store where
  statements : List StoredStatement
  conversations : List Conversation
  nextConvId : Nat
deriving Repr, DecidableEq

/-- Create or increment one response link `prior` in a link list: the count
of the first entry for `prior` is incremented, or a fresh entry with count 1
is appended (spec §3: count ≥ 1, increments each time the pairing recurs). -/
def upsertLink : Links → String → Links
  | [], prior => [(prior, 1)]
  | p :: ps, prior =>
      if p.1 = prior then (p.1, p.2 + 1) :: ps
      else p :: upsertLink ps prior

/-- Modelled from the spec: `Statement.add_response` records one more
observation of this statement following the statement with text `prior`
(create or increment the link, spec §4.3). -/
def Statement.add_response (s : Statement) (prior : String) : Statement :=
  { s with in_response_to := upsertLink s.in_response_to prior }

/-- Fold every link name carried by an incoming statement into a stored link
list, creating or incrementing each named pairing once per occurrence. -/
def mergeLinks (stored : Links) (incoming : Links) : Links :=
  incoming.foldl (fun acc p => upsertLink acc p.1) stored

/-- Upsert a statement into the keyed list of stored records: the first
record with the same text has its occurrence incremented by one and the
incoming links merged; an absent text gets a fresh record with occurrence 1
(spec §8 round trip: occurrence count +1 per upsert). -/
def upsertStored : List StoredStatement → Statement → List StoredStatement
  | [], s => [{ text := s.text, occurrence := 1, links := mergeLinks [] s.in_response_to }]
  | t :: ts, s =>
      if t.text = s.text then
        { text := t.text, occurrence := t.occurrence + 1,
          links := mergeLinks t.links s.in_response_to } :: ts
      else t :: upsertStored ts s

/-- Modelled from the spec: `storage.update` — the Statement Store upsert
with atomic increment semantics (spec §5, §6, §8). -/
def Store.update (st : Store) (s : Statement) : Store :=
  { st with statements := upsertStored st.statements s }

/-- Modelled from the spec: `storage.Conversation.objects.create()` — a new
empty conversation persisted in the store under a fresh id (spec §3). -/
def Store.createConversation (st : Store) : Conversation × Store :=
  let c : Conversation := { id := st.nextConvId, statements := [] }
  (c, { st with conversations := st.conversations ++ [c],
                nextConvId := st.nextConvId + 1 })

/-- Modelled from the spec: `conversations.get` — look a conversation up by
its session id (spec §4.4). -/
def Store.getConversation (st : Store) (cid : Nat) : Option Conversation :=
  st.conversations.find? (fun c => c.id == cid)

/-- Modelled from the spec: `conversation.statements.add` — append one
statement to the ordered turn sequence of the conversation with id `cid`
(spec §4.4 `append`). -/
def Store.convAdd (st : Store) (cid : Nat) (s : Statement) : Store :=
  { st with conversations := st.conversations.map (fun c =>
      if c.id = cid then { c with statements := c.statements ++ [s] } else c) }

/-- Modelled from the spec: `conversation.get_last_response_statement` — the
most recently appended statement of the conversation, or absence when the
conversation is empty or unknown (spec §4.4 `last_response`). -/
def Store.get_last_response_statement (st : Store) (cid : Nat) : Option Statement :=
  match st.getConversation cid with
  | some c => c.statements.getLast?
  | none => none

/-- Confidence scores are values in [0,1], compared within one selection
round (spec §3); modelled as rationals. -/
structure StrategyResult where
  response : Statement
  confidence : ℚ

/-- A matching strategy: a pure function of the candidate pool and the input
statement, returning a response and a confidence (spec §4.1). -/
abbrev Strategy := List StoredStatement → Statement → StrategyResult

/-- Modelled from the spec: the mandatory no-knowledge fallback strategy —
confidence 0 with the configured default response (spec §4.1). -/
def noKnowledgeAdapter (default_response : Statement) : Strategy :=
  fun _ _ => { response := default_response, confidence := 0 }

/-- One comparison step of the ensemble: a later result replaces the current
best only when its confidence is strictly higher, so exact ties keep the
earlier strategy's result (spec §4.2 step 3). -/
def tieMax (best x : StrategyResult) : StrategyResult :=
  if best.confidence < x.confidence then x else best

/-- Select the result with the strictly highest confidence from a list of
strategy results; ties go to the earliest entry; an empty list yields no
result (spec §4.2). -/
def selectBest : List StrategyResult → Option StrategyResult
  | [] => none
  | r :: rs => some (rs.foldl tieMax r)

/-- Modelled from the spec: `MultiLogicAdapter.process` — run every
configured strategy, in configured order, against the same candidate pool
and input, then apply the tie-break policy (spec §4.2 steps 2–3). -/
def multiLogicProcess (adapters : List Strategy) (pool : List StoredStatement)
    (input : Statement) : Option StrategyResult :=
  selectBest (adapters.map (fun a => a pool input))

/-- The engine state of `ChatBot` (`chatterbot.py` lines 14–83): the storage
adapter's observable state, the cached default conversation, the read-only
flag, the multi-logic adapter's configured and system strategy lists, and
the preprocessor pipeline.  Input/output adapters, filters, the trainer and
the logger carry no state relevant to the modelled core. -/
structure ChatBot where
  store : Store
  default_conversation : Option Nat
  read_only : Bool
  adapters : List Strategy
  system_adapters : List Strategy
  preprocessors : List (Statement → Statement)

/-- Modelled from the spec: the ensemble's full strategy order — the
configured strategies followed by the system (fallback) strategies, the
mandatory no-knowledge strategy structurally last (spec §4.1, §9). -/
def ChatBot.allAdapters (bot : ChatBot) : List Strategy :=
  bot.adapters ++ bot.system_adapters

/-- The keyword arguments of the `ChatBot` constructor that reach the
modelled core: `logic_adapters`, `preprocessors` and `read_only` are
optional with defaults (`chatterbot.py` lines 23–25, 58–61, 80); the
fallback's configured default response initializes the no-knowledge
adapter. -/
structure Kwargs where
  logic_adapters : Option (List Strategy)
  preprocessors : Option (List (Statement → Statement))
  read_only : Option Bool
  default_response : Statement

/-- `ChatBot.__init__` (`chatterbot.py` lines 14–83): starts with an empty
store and no default conversation, takes the configured logic adapters (or
the external BestMatch default, passed as `bestMatch`), always appends the
required no-knowledge system adapter, takes the configured preprocessors
(or the external clean-whitespace default), and reads `read_only` from the
keyword arguments with default `False` (line 80). -/
def mkChatBot (bestMatch : Strategy) (clean_whitespace : Statement → Statement)
    (kwargs : Kwargs) : ChatBot :=
  { store := { statements := [], conversations := [], nextConvId := 1 }
  , default_conversation := none
  , read_only := kwargs.read_only.getD false
  , adapters := kwargs.logic_adapters.getD [bestMatch]
  , system_adapters := [noKnowledgeAdapter kwargs.default_response]
  , preprocessors := kwargs.preprocessors.getD [clean_whitespace] }

/-- `ChatBot.get_or_create_default_conversation` (`chatterbot.py` lines
176–185): lazily create the process-default conversation in the store on
first use and cache it; later calls return the cached conversation. -/
def ChatBot.get_or_create_default_conversation (bot : ChatBot) : Nat × ChatBot :=
  match bot.default_conversation with
  | some cid => (cid, bot)
  | none =>
      let cs := bot.store.createConversation
      (cs.1.id, { bot with store := cs.2, default_conversation := some cs.1.id })

/-- The conversation-resolution steps inlined in `ChatBot.get_response`
(`chatterbot.py` lines 111–117): a truthy `conversation_id` is looked up,
and when no conversation is found — or no id was supplied — the default
conversation is used instead. -/
def ChatBot.resolveConversation (bot : ChatBot) (conversation_id : Option Nat) :
    Nat × ChatBot :=
  match conversation_id with
  | some cid =>
      if cid ≠ 0 then
        match bot.store.getConversation cid with
        | some c => (c.id, bot)
        | none => bot.get_or_create_default_conversation
      else bot.get_or_create_default_conversation
  | none => bot.get_or_create_default_conversation

/-- The preprocessor pipeline of `ChatBot.get_response` (`chatterbot.py`
lines 107–109): apply each configured preprocessor in order. -/
def ChatBot.preprocess (bot : ChatBot) (input_item : Statement) : Statement :=
  bot.preprocessors.foldl (fun s p => p s) input_item

/-- `ChatBot.generate_response` (`chatterbot.py` lines 133–142): build the
base query (a store read with no mutation, spec §4.2 side effects), run the
multi-logic adapter on the input, and return the input statement together
with the selected response. -/
def ChatBot.generate_response (bot : ChatBot) (input_statement : Statement)
    (_conversation_id : Nat) : Statement × Option StrategyResult :=
  (input_statement, multiLogicProcess bot.allAdapters bot.store.statements input_statement)

/-- The in-memory statement mutation step of `learn_response`
(`chatterbot.py` lines 151–158): when a previous statement exists, it is
added as a response link on the statement via `add_response`; otherwise the
statement is unchanged. -/
def learnedStatement (statement : Statement) (previous_statement : Option Statement) :
    Statement :=
  match previous_statement with
  | some prev => statement.add_response prev.text
  | none => statement

/-- `ChatBot.learn_response` (`chatterbot.py` lines 144–163): fall back to
the default conversation when none is given; when a previous statement
exists, add it as a response link on the statement; then, unless the engine
is read-only, persist the statement via `storage.update` and append it to
the conversation.  Returns the (possibly mutated) in-memory statement and
the new engine state. -/
def ChatBot.learn_response (bot : ChatBot) (statement : Statement)
    (previous_statement : Option Statement) (conversation : Option Nat) :
    Statement × ChatBot :=
  let rc :=
    match conversation with
    | none => bot.get_or_create_default_conversation
    | some c => (c, bot)
  let statement1 := learnedStatement statement previous_statement
  if !rc.2.read_only then
    (statement1, { rc.2 with
      store := (rc.2.store.update statement1).convAdd rc.1 statement1 })
  else
    (statement1, rc.2)

/-- `ChatBot.get_response` (`chatterbot.py` lines 97–131): process and
preprocess the input, resolve the conversation, generate a response, fetch
the conversation's last response statement, learn the input as a response
to it, and — unless read-only — save the response and append it to the
conversation.  The input and output adapters that convert external
representations are out of scope and act as the identity here. -/
def ChatBot.get_response (bot : ChatBot) (input_item : Statement)
    (conversation_id : Option Nat) : Option Statement × ChatBot :=
  let input_statement := bot.preprocess input_item
  let rc := bot.resolveConversation conversation_id
  match rc.2.generate_response input_statement rc.1 with
  | (_, none) => (none, rc.2)
  | (statement, some result) =>
      let response := result.response
      let previous_statement := rc.2.store.get_last_response_statement rc.1
      let lr := rc.2.learn_response statement previous_statement (some rc.1)
      let bot3 :=
        if !lr.2.read_only then
          { lr.2 with store := (lr.2.store.update response).convAdd rc.1 response }
        else lr.2
      (some response, bot3)

/-! ## Observation functions on the store -/

/-- The occurrence count recorded for a text in a keyed statement list
(0 when the text is absent). -/
def occList : List StoredStatement → String → Nat
  | [], _ => 0
  | t :: ts, txt => if t.text = txt then t.occurrence else occList ts txt

/-- The stored links of a text in a keyed statement list. -/
def linksList : List StoredStatement → String → Links
  | [], _ => []
  | t :: ts, txt => if t.text = txt then t.links else linksList ts txt

/-- The count recorded for one link name in a link list (0 when absent). -/
def linkCount : Links → String → Nat
  | [], _ => 0
  | p :: ps, prior => if p.1 = prior then p.2 else linkCount ps prior

/-- How many entries of a link list carry a given name. -/
def namesCount : Links → String → Nat
  | [], _ => 0
  | p :: ps, txt => (if p.1 = txt then 1 else 0) + namesCount ps txt

/-- The store-observable occurrence count of a statement text. -/
def Store.occurrenceOf (st : Store) (txt : String) : Nat :=
  occList st.statements txt

/-- The store-observable count of the response link `prior → txt`. -/
def Store.linkCountOf (st : Store) (txt prior : String) : Nat :=
  linkCount (linksList st.statements txt) prior

/-- The engine state after lazily creating the default conversation in the
store and caching its id (proof abbreviation for the effect of
`get_or_create_default_conversation` on a bot with no cached default). -/
def ChatBot.withDefaultCreated (bot : ChatBot) : ChatBot :=
  { bot with
    store := { bot.store with
      conversations := bot.store.conversations ++
        [{ id := bot.store.nextConvId, statements := [] }],
      nextConvId := bot.store.nextConvId + 1 },
    default_conversation := some bot.store.nextConvId }

/-! ## Link and occurrence-count lemmas -/

theorem linkCount_upsertLink_self (l : Links) (prior : String) :
    linkCount (upsertLink l prior) prior = linkCount l prior + 1 := by
  induction l with
  | nil => simp [upsertLink, linkCount]
  | cons p ps ih =>
      by_cases h : p.1 = prior
      · simp [upsertLink, linkCount, h]
      · simp [upsertLink, linkCount, h, ih]

theorem linkCount_upsertLink_other (l : Links) (q prior : String) (h : q ≠ prior) :
    linkCount (upsertLink l q) prior = linkCount l prior := by
  induction l with
  | nil => simp [upsertLink, linkCount, h]
  | cons p ps ih =>
      by_cases hp : p.1 = q
      · simp [upsertLink, linkCount, hp, h]
      · simp [upsertLink, linkCount, hp, ih]

theorem namesCount_upsertLink_self (l : Links) (prior : String) :
    1 ≤ namesCount (upsertLink l prior) prior := by
  induction l with
  | nil => simp [upsertLink, namesCount]
  | cons p ps ih =>
      by_cases h : p.1 = prior
      · simp [upsertLink, namesCount, h]
      · simpa [upsertLink, namesCount, h] using ih

theorem linkCount_mergeLinks (incoming : Links) (stored : Links) (prior : String) :
    linkCount (mergeLinks stored incoming) prior
      = linkCount stored prior + namesCount incoming prior := by
  induction incoming generalizing stored with
  | nil => simp [mergeLinks, namesCount]
  | cons p ps ih =>
      have hstep : mergeLinks stored (p :: ps) = mergeLinks (upsertLink stored p.1) ps := rfl
      by_cases h : p.1 = prior
      · rw [hstep, ih]
        have := linkCount_upsertLink_self stored prior
        simp [namesCount, h, h ▸ this]
        omega
      · rw [hstep, ih]
        simp [namesCount, h, linkCount_upsertLink_other stored p.1 prior h]

theorem occList_upsertStored_self (l : List StoredStatement) (s : Statement) :
    occList (upsertStored l s) s.text = occList l s.text + 1 := by
  induction l with
  | nil => simp [upsertStored, occList]
  | cons t ts ih =>
      by_cases h : t.text = s.text
      · simp [upsertStored, occList, h]
      · simp [upsertStored, occList, h, ih]

theorem occList_upsertStored_ge (l : List StoredStatement) (s : Statement) (txt : String) :
    occList l txt ≤ occList (upsertStored l s) txt := by
  induction l with
  | nil => exact Nat.zero_le _
  | cons t ts ih =>
      by_cases h : t.text = s.text
      · by_cases h2 : t.text = txt
        · have h3 : s.text = txt := h ▸ h2
          simp [upsertStored, occList, h, h3]
        · have h3 : ¬s.text = txt := fun hs => h2 (h.trans hs)
          simp [upsertStored, occList, h, h3]
      · by_cases h2 : t.text = txt
        · have h3 : ¬txt = s.text := fun hs => h (h2.trans hs)
          simp [upsertStored, occList, h, h2, h3]
        · simpa [upsertStored, occList, h, h2] using ih

theorem linksList_upsertStored_self (l : List StoredStatement) (s : Statement) :
    linksList (upsertStored l s) s.text
      = mergeLinks (linksList l s.text) s.in_response_to := by
  induction l with
  | nil => simp [upsertStored, linksList]
  | cons t ts ih =>
      by_cases h : t.text = s.text
      · simp [upsertStored, linksList, h]
      · simp [upsertStored, linksList, h, ih]

theorem linksList_upsertStored_other (l : List StoredStatement) (s : Statement)
    (txt : String) (h : s.text ≠ txt) :
    linksList (upsertStored l s) txt = linksList l txt := by
  induction l with
  | nil => simp [upsertStored, linksList, h]
  | cons t ts ih =>
      by_cases ht : t.text = s.text
      · simp [upsertStored, linksList, ht, h]
      · by_cases h2 : t.text = txt
        · have h3 : ¬txt = s.text := fun hs => ht (h2.trans hs)
          simp [upsertStored, linksList, ht, h2, h3]
        · simp [upsertStored, linksList, ht, h2, ih]

theorem occurrenceOf_update_self (st : Store) (s : Statement) :
    (st.update s).occurrenceOf s.text = st.occurrenceOf s.text + 1 :=
  occList_upsertStored_self st.statements s

theorem occurrenceOf_update_ge (st : Store) (s : Statement) (txt : String) :
    st.occurrenceOf txt ≤ (st.update s).occurrenceOf txt :=
  occList_upsertStored_ge st.statements s txt

theorem linkCountOf_update_ge (st : Store) (s : Statement) (txt prior : String) :
    st.linkCountOf txt prior ≤ (st.update s).linkCountOf txt prior := by
  by_cases h : s.text = txt
  · subst h
    show st.linkCountOf s.text prior ≤
      linkCount (linksList (upsertStored st.statements s) s.text) prior
    rw [linksList_upsertStored_self, linkCount_mergeLinks]
    exact Nat.le_add_right _ _
  · show st.linkCountOf txt prior ≤
      linkCount (linksList (upsertStored st.statements s) txt) prior
    rw [linksList_upsertStored_other st.statements s txt h]
    exact Nat.le_refl _

theorem linkCountOf_update_self_ge (st : Store) (s : Statement) (prior : String)
    (h : 1 ≤ namesCount s.in_response_to prior) :
    st.linkCountOf s.text prior + 1 ≤ (st.update s).linkCountOf s.text prior := by
  show linkCount (linksList st.statements s.text) prior + 1
    ≤ linkCount (linksList (upsertStored st.statements s) s.text) prior
  rw [linksList_upsertStored_self, linkCount_mergeLinks]
  omega

theorem occurrenceOf_convAdd (st : Store) (cid : Nat) (s : Statement) (txt : String) :
    (st.convAdd cid s).occurrenceOf txt = st.occurrenceOf txt := rfl

theorem linkCountOf_convAdd (st : Store) (cid : Nat) (s : Statement) (txt prior : String) :
    (st.convAdd cid s).linkCountOf txt prior = st.linkCountOf txt prior := rfl

theorem statements_convAdd (st : Store) (cid : Nat) (s : Statement) :
    (st.convAdd cid s).statements = st.statements := rfl

/-! ## Ensemble-selection lemmas -/

theorem tieMax_of_lt {best x : StrategyResult} (h : best.confidence < x.confidence) :
    tieMax best x = x := by
  unfold tieMax
  rw [if_pos h]

theorem foldl_tieMax_le (l : List StrategyResult) (best : StrategyResult)
    (h : ∀ x ∈ l, x.confidence ≤ best.confidence) :
    l.foldl tieMax best = best := by
  induction l with
  | nil => rfl
  | cons a l ih =>
      have ha : tieMax best a = best := by
        unfold tieMax
        rw [if_neg (not_lt.mpr (h a (List.mem_cons_self a l)))]
      rw [List.foldl_cons, ha]
      exact ih (fun x hx => h x (List.mem_cons_of_mem a hx))

theorem foldl_tieMax_mem (l : List StrategyResult) (best : StrategyResult) :
    l.foldl tieMax best = best ∨ l.foldl tieMax best ∈ l := by
  induction l generalizing best with
  | nil => left; rfl
  | cons a l ih =>
      rw [List.foldl_cons]
      rcases ih (tieMax best a) with h | h
      · rw [h]
        unfold tieMax
        split
        · right; exact List.mem_cons_self a l
        · left; rfl
      · right; exact List.mem_cons_of_mem a h

theorem selectBest_first (pre rest : List StrategyResult) (r : StrategyResult)
    (hpre : ∀ x ∈ pre, x.confidence < r.confidence)
    (hrest : ∀ x ∈ rest, x.confidence ≤ r.confidence) :
    selectBest (pre ++ r :: rest) = some r := by
  cases pre with
  | nil =>
      show some (rest.foldl tieMax r) = some r
      rw [foldl_tieMax_le rest r hrest]
  | cons p pre' =>
      show some ((pre' ++ r :: rest).foldl tieMax p) = some r
      rw [List.foldl_append]
      have hblt : (pre'.foldl tieMax p).confidence < r.confidence := by
        rcases foldl_tieMax_mem pre' p with h | h
        · rw [h]; exact hpre p (List.mem_cons_self p pre')
        · exact hpre _ (List.mem_cons_of_mem p h)
      rw [List.foldl_cons, tieMax_of_lt hblt, foldl_tieMax_le rest r hrest]

theorem selectBest_isSome (l : List StrategyResult) (h : l ≠ []) :
    ∃ r, selectBest l = some r := by
  cases l with
  | nil => exact absurd rfl h
  | cons a l => exact ⟨_, rfl⟩

/-! ## Conversation-resolution lemmas -/

theorem gocd_snd (bot : ChatBot) :
    (bot.get_or_create_default_conversation).2 = bot ∨
    (bot.default_conversation = none ∧
     (bot.get_or_create_default_conversation).2 = bot.withDefaultCreated) := by
  cases h : bot.default_conversation with
  | some d =>
      left
      simp [ChatBot.get_or_create_default_conversation, h]
  | none =>
      right
      refine ⟨rfl, ?_⟩
      simp [ChatBot.get_or_create_default_conversation, h, Store.createConversation,
        ChatBot.withDefaultCreated]

theorem gocd_some (bot : ChatBot) (d : Nat) (h : bot.default_conversation = some d) :
    bot.get_or_create_default_conversation = (d, bot) := by
  simp [ChatBot.get_or_create_default_conversation, h]

theorem resolve_none_eq (bot : ChatBot) :
    bot.resolveConversation none = bot.get_or_create_default_conversation := rfl

theorem resolve_zero_eq (bot : ChatBot) :
    bot.resolveConversation (some 0) = bot.get_or_create_default_conversation := by
  simp [ChatBot.resolveConversation]

theorem resolve_absent_eq (bot : ChatBot) (c : Nat)
    (hg : bot.store.getConversation c = none) :
    bot.resolveConversation (some c) = bot.get_or_create_default_conversation := by
  by_cases h0 : c = 0
  · subst h0; exact resolve_zero_eq bot
  · simp [ChatBot.resolveConversation, h0, hg]

theorem resolve_found_eq (bot : ChatBot) (c : Nat) (cv : Conversation)
    (h0 : c ≠ 0) (hg : bot.store.getConversation c = some cv) :
    bot.resolveConversation (some c) = (cv.id, bot) := by
  simp [ChatBot.resolveConversation, h0, hg]

theorem resolve_snd (bot : ChatBot) (cid : Option Nat) :
    (bot.resolveConversation cid).2 = bot ∨
    (bot.default_conversation = none ∧
     (bot.resolveConversation cid).2 = bot.withDefaultCreated) := by
  cases cid with
  | none =>
      rw [resolve_none_eq]
      exact gocd_snd bot
  | some c =>
      by_cases hc : c = 0
      · subst hc
        rw [resolve_zero_eq]
        exact gocd_snd bot
      · cases hg : bot.store.getConversation c with
        | some cv =>
            rw [resolve_found_eq bot c cv hc hg]
            left; rfl
        | none =>
            rw [resolve_absent_eq bot c hg]
            exact gocd_snd bot

theorem resolve_statements (bot : ChatBot) (cid : Option Nat) :
    ((bot.resolveConversation cid).2).store.statements = bot.store.statements := by
  rcases resolve_snd bot cid with h | ⟨_, h⟩ <;> rw [h]
  rfl

theorem resolve_read_only (bot : ChatBot) (cid : Option Nat) :
    ((bot.resolveConversation cid).2).read_only = bot.read_only := by
  rcases resolve_snd bot cid with h | ⟨_, h⟩ <;> rw [h]
  rfl

theorem resolve_allAdapters (bot : ChatBot) (cid : Option Nat) :
    ((bot.resolveConversation cid).2).allAdapters = bot.allAdapters := by
  rcases resolve_snd bot cid with h | ⟨_, h⟩ <;> rw [h]
  rfl

theorem resolve_conversations (bot : ChatBot) (cid : Option Nat) :
    ((bot.resolveConversation cid).2).store.conversations = bot.store.conversations ∨
    ((bot.resolveConversation cid).2).store.conversations
      = bot.store.conversations ++ [{ id := bot.store.nextConvId, statements := [] }] := by
  rcases resolve_snd bot cid with h | ⟨_, h⟩
  · left; rw [h]
  · right; rw [h]; rfl

theorem resolve_of_default_isSome (bot : ChatBot) (cid : Option Nat)
    (h : bot.default_conversation.isSome = true) :
    ((bot.resolveConversation cid).2) = bot := by
  rcases resolve_snd bot cid with h2 | ⟨h1, _⟩
  · exact h2
  · rw [h1] at h
    simp at h

theorem gocd_caches (bot : ChatBot) :
    ((bot.get_or_create_default_conversation).2).default_conversation
      = some (bot.get_or_create_default_conversation).1 := by
  cases h : bot.default_conversation <;>
    simp [ChatBot.get_or_create_default_conversation, h, Store.createConversation]

/-! ## Learning and response-path reduction lemmas -/

theorem learnedStatement_text (s : Statement) (prev : Option Statement) :
    (learnedStatement s prev).text = s.text := by
  cases prev <;> rfl

theorem learn_response_some (bot : ChatBot) (s : Statement)
    (prev : Option Statement) (cid : Nat) :
    bot.learn_response s prev (some cid)
      = (learnedStatement s prev,
         if !bot.read_only then
           { bot with store := ((bot.store.update (learnedStatement s prev)).convAdd cid (learnedStatement s prev)) }
         else bot) := by
  cases h : bot.read_only <;> simp [ChatBot.learn_response, h]

theorem learn_response_some_ro (bot : ChatBot) (s : Statement)
    (prev : Option Statement) (cid : Nat) (h : bot.read_only = true) :
    (bot.learn_response s prev (some cid)).2 = bot := by
  rw [learn_response_some]
  simp [h]

theorem learn_response_some_rw (bot : ChatBot) (s : Statement)
    (prev : Option Statement) (cid : Nat) (h : bot.read_only = false) :
    (bot.learn_response s prev (some cid)).2
      = { bot with store := ((bot.store.update (learnedStatement s prev)).convAdd cid (learnedStatement s prev)) } := by
  rw [learn_response_some]
  simp [h]

theorem get_response_readonly_snd (bot : ChatBot) (s : Statement) (cid : Option Nat)
    (h : bot.read_only = true) :
    (bot.get_response s cid).2 = (bot.resolveConversation cid).2 := by
  have hro2 : ((bot.resolveConversation cid).2).read_only = true := by
    rw [resolve_read_only]; exact h
  cases hres : selectBest (((bot.resolveConversation cid).2).allAdapters.map
      (fun a => a ((bot.resolveConversation cid).2).store.statements (bot.preprocess s))) with
  | none =>
      simp only [ChatBot.get_response, ChatBot.generate_response, multiLogicProcess, hres]
  | some result =>
      simp only [ChatBot.get_response, ChatBot.generate_response, multiLogicProcess, hres]
      rw [learn_response_some]
      simp [hro2]

theorem get_response_store (bot : ChatBot) (s : Statement) (cid : Option Nat)
    (result : StrategyResult)
    (hres : selectBest (((bot.resolveConversation cid).2).allAdapters.map
        (fun a => a ((bot.resolveConversation cid).2).store.statements (bot.preprocess s)))
      = some result)
    (hro : bot.read_only = false) :
    ((bot.get_response s cid).2).store.statements
      = upsertStored
          (upsertStored ((bot.resolveConversation cid).2).store.statements
            (learnedStatement (bot.preprocess s)
              (((bot.resolveConversation cid).2).store.get_last_response_statement
                (bot.resolveConversation cid).1)))
          result.response := by
  have hro2 : ((bot.resolveConversation cid).2).read_only = false := by
    rw [resolve_read_only]; exact hro
  simp only [ChatBot.get_response, ChatBot.generate_response, multiLogicProcess, hres]
  rw [learn_response_some]
  simp [hro2]
  rfl

theorem get_response_fst (bot : ChatBot) (s : Statement) (cid : Option Nat)
    (result : StrategyResult)
    (hres : selectBest (((bot.resolveConversation cid).2).allAdapters.map
        (fun a => a ((bot.resolveConversation cid).2).store.statements (bot.preprocess s)))
      = some result) :
    (bot.get_response s cid).1 = some result.response := by
  simp only [ChatBot.get_response, ChatBot.generate_response, multiLogicProcess, hres]

theorem occurrenceOf_congr (st1 st2 : Store) (h : st1.statements = st2.statements)
    (txt : String) : st1.occurrenceOf txt = st2.occurrenceOf txt := by
  unfold Store.occurrenceOf
  rw [h]

theorem linkCountOf_congr (st1 st2 : Store) (h : st1.statements = st2.statements)
    (txt prior : String) : st1.linkCountOf txt prior = st2.linkCountOf txt prior := by
  unfold Store.linkCountOf
  rw [h]

theorem find?_append_some {α : Type} (p : α → Bool) (l l' : List α) (a : α)
    (h : l.find? p = some a) : (l ++ l').find? p = some a := by
  induction l with
  | nil => simp [List.find?] at h
  | cons x xs ih =>
      rw [List.cons_append]
      by_cases hx : p x
      · rw [List.find?_cons_of_pos _ hx] at h ⊢
        exact h
      · rw [List.find?_cons_of_neg _ hx] at h ⊢
        exact ih h

/-! ## Concrete fixtures used by witnesses and counterexamples -/

def sampleDefaultResponse : Statement :=
  { text := "I do not understand", in_response_to := [] }

def hiStatement : Statement := { text := "Hi", in_response_to := [] }

def howStatement : Statement := { text := "How are you", in_response_to := [] }

def echoStrategy : Strategy := fun _ inp => { response := inp, confidence := 1 }

def fineStrategy : Strategy :=
  fun _ _ => { response := { text := "Fine", in_response_to := [] }, confidence := 1 }

def sampleKwargs (ro : Option Bool) : Kwargs :=
  { logic_adapters := some [], preprocessors := some [], read_only := ro,
    default_response := sampleDefaultResponse }

/-- A freshly constructed engine with read-only enabled. -/
def sampleBotRO : ChatBot := mkChatBot echoStrategy id (sampleKwargs (some true))

/-- A read-only engine whose store already holds conversation 1 with one
prior turn, with the default conversation cached. -/
def sampleBotConv : ChatBot :=
  { store := { statements := [], conversations := [{ id := 1, statements := [hiStatement] }],
               nextConvId := 2 }
  , default_conversation := some 1
  , read_only := true
  , adapters := []
  , system_adapters := [noKnowledgeAdapter sampleDefaultResponse]
  , preprocessors := [] }

/-- A learning-enabled engine whose store holds an empty conversation 1,
with the default conversation cached. -/
def sampleBotC2 : ChatBot :=
  { store := { statements := [], conversations := [{ id := 1, statements := [] }],
               nextConvId := 2 }
  , default_conversation := some 1
  , read_only := false
  , adapters := []
  , system_adapters := [noKnowledgeAdapter sampleDefaultResponse]
  , preprocessors := [] }

/-- A learning-enabled engine whose store holds conversation 1 containing
one prior turn. -/
def sampleBotC6 : ChatBot :=
  { store := { statements := [], conversations := [{ id := 1, statements := [hiStatement] }],
               nextConvId := 2 }
  , default_conversation := some 1
  , read_only := false
  , adapters := []
  , system_adapters := [noKnowledgeAdapter sampleDefaultResponse]
  , preprocessors := [] }

/-! ## Claim theorems -/

/-- C4: for every constructed engine and every input, `get_response` returns
a non-absent response: the constructor unconditionally appends the mandatory
no-knowledge fallback strategy, so the ensemble's strategy list is never
empty and selection never yields an absent result, even on an empty
corpus. -/
theorem C4_fallback_guarantee (bm : Strategy) (cw : Statement → Statement)
    (kwargs : Kwargs) (s : Statement) (cid : Option Nat) :
    ∃ r : Statement, ((mkChatBot bm cw kwargs).get_response s cid).1 = some r := by
  have hne : (mkChatBot bm cw kwargs).allAdapters ≠ [] := by
    simp [mkChatBot, ChatBot.allAdapters]
  obtain ⟨result, hres⟩ := selectBest_isSome
    ((((mkChatBot bm cw kwargs).resolveConversation cid).2).allAdapters.map
      (fun a => a (((mkChatBot bm cw kwargs).resolveConversation cid).2).store.statements
        ((mkChatBot bm cw kwargs).preprocess s)))
    (by
      rw [resolve_allAdapters]
      intro hm
      exact hne (List.map_eq_nil_iff.mp hm))
  exact ⟨result.response, get_response_fst _ _ _ result hres⟩

/-- C7: ensemble tie-break — when two strategies return results of exactly
equal confidence which no other strategy strictly exceeds, the ensemble
selector returns the result of the strategy that appears earliest in the
configured order; the selector is a pure function of the configuration
order, pool and input, so the winner is reproducible across runs. -/
theorem C7_tie_break_earliest (pre mid post : List Strategy) (a b : Strategy)
    (pool : List StoredStatement) (input : Statement)
    (heq : (a pool input).confidence = (b pool input).confidence)
    (hpre : ∀ x ∈ pre, (x pool input).confidence < (a pool input).confidence)
    (hmid : ∀ x ∈ mid, (x pool input).confidence ≤ (a pool input).confidence)
    (hpost : ∀ x ∈ post, (x pool input).confidence ≤ (a pool input).confidence) :
    multiLogicProcess (pre ++ a :: (mid ++ b :: post)) pool input
      = some (a pool input) := by
  unfold multiLogicProcess
  rw [List.map_append, List.map_cons, List.map_append, List.map_cons]
  apply selectBest_first
  · intro x hx
    rw [List.mem_map] at hx
    obtain ⟨y, hy, rfl⟩ := hx
    exact hpre y hy
  · intro x hx
    rcases List.mem_append.mp hx with hx1 | hx2
    · rw [List.mem_map] at hx1
      obtain ⟨y, hy, rfl⟩ := hx1
      exact hmid y hy
    · rcases List.mem_cons.mp hx2 with hxb | hx3
      · rw [hxb]
        exact le_of_eq heq.symm
      · rw [List.mem_map] at hx3
        obtain ⟨y, hy, rfl⟩ := hx3
        exact hpost y hy

/-- Witness for C7 at a concrete tie: `echoStrategy` and `fineStrategy` both
return confidence 1 on the input, and the earlier-configured `echoStrategy`
wins. -/
theorem C7_tie_break_earliest_witness :
    multiLogicProcess [echoStrategy, fineStrategy] [] hiStatement
      = some (echoStrategy [] hiStatement) :=
  C7_tie_break_earliest [] [] [] echoStrategy fineStrategy [] hiStatement rfl
    (by simp) (by simp) (by simp)

/-- C9: `get_or_create_default_conversation` creates at most one default
conversation per engine: a call adds at most one conversation to the store,
and calling it again right after returns the very same conversation id and
engine state, creating nothing further. -/
theorem C9_default_conversation_idempotent (bot : ChatBot) :
    ((bot.get_or_create_default_conversation).2).get_or_create_default_conversation
        = ((bot.get_or_create_default_conversation).1,
           (bot.get_or_create_default_conversation).2)
    ∧ ((bot.get_or_create_default_conversation).2).store.conversations.length
        ≤ bot.store.conversations.length + 1 := by
  refine ⟨gocd_some _ _ (gocd_caches bot), ?_⟩
  cases h : bot.default_conversation with
  | some d =>
      rw [gocd_some bot d h]
      exact Nat.le_succ _
  | none =>
      have hc : (bot.get_or_create_default_conversation).2.store.conversations
          = bot.store.conversations ++ [{ id := bot.store.nextConvId, statements := [] }] := by
        simp [ChatBot.get_or_create_default_conversation, h, Store.createConversation]
      rw [hc]
      simp

/-- C10: in `learn_response` with a present previous statement, the
in-memory `add_response` mutation happens regardless of the read-only flag
(the returned statement always carries the new link), while the storage
update and the conversation append are the only steps guarded by read-only:
when the flag is set, the engine state is returned unchanged. -/
theorem C10_add_response_unguarded (bot : ChatBot) (s prev : Statement) (cid : Nat) :
    (bot.learn_response s (some prev) (some cid)).1 = s.add_response prev.text
    ∧ (bot.read_only = true →
        (bot.learn_response s (some prev) (some cid)).2 = bot) := by
  constructor
  · by_cases h : bot.read_only = true <;>
      simp [ChatBot.learn_response, h, learnedStatement]
  · intro h
    exact learn_response_some_ro bot s (some prev) cid h

/-- Witness for C10 on a read-only engine: the returned statement carries
the link and the engine state is unchanged. -/
theorem C10_add_response_unguarded_witness :
    (sampleBotRO.learn_response howStatement (some hiStatement) (some 1)).1
        = howStatement.add_response hiStatement.text
    ∧ (sampleBotRO.read_only = true →
        (sampleBotRO.learn_response howStatement (some hiStatement) (some 1)).2
          = sampleBotRO) :=
  C10_add_response_unguarded sampleBotRO howStatement hiStatement 1

/-- C5: every `learn_response` call on a learning-enabled engine persists
the statement with its occurrence count incremented by exactly one, whether
or not a prior statement exists; and when a prior statement is present, the
stored response link `prior → statement` is created or incremented (its
count strictly increases, so it is at least 1 afterwards). -/
theorem C5_learn_increments (bot : ChatBot) (s : Statement)
    (prev? : Option Statement) (cid : Nat) (h : bot.read_only = false) :
    (((bot.learn_response s prev? (some cid)).2).store.occurrenceOf s.text
        = bot.store.occurrenceOf s.text + 1)
    ∧ (∀ prev, prev? = some prev →
        bot.store.linkCountOf s.text prev.text + 1
          ≤ ((bot.learn_response s prev? (some cid)).2).store.linkCountOf
              s.text prev.text) := by
  rw [learn_response_some_rw bot s prev? cid h]
  constructor
  · show ((bot.store.update (learnedStatement s prev?)).convAdd cid
        (learnedStatement s prev?)).occurrenceOf s.text = _
    rw [occurrenceOf_convAdd]
    have hx := occurrenceOf_update_self bot.store (learnedStatement s prev?)
    rw [learnedStatement_text] at hx
    exact hx
  · intro prev hp
    subst hp
    show _ ≤ ((bot.store.update (learnedStatement s (some prev))).convAdd cid
        (learnedStatement s (some prev))).linkCountOf s.text prev.text
    rw [linkCountOf_convAdd]
    have hn : 1 ≤ namesCount (learnedStatement s (some prev)).in_response_to prev.text := by
      show 1 ≤ namesCount (upsertLink s.in_response_to prev.text) prev.text
      exact namesCount_upsertLink_self s.in_response_to prev.text
    have hx := linkCountOf_update_self_ge bot.store (learnedStatement s (some prev))
      prev.text hn
    rw [learnedStatement_text] at hx
    exact hx

/-- Witness for C5 on a learning-enabled engine with an empty store: one
call stores the statement with occurrence 1 and the link with count at
least 1. -/
theorem C5_learn_increments_witness :
    sampleBotC2.read_only = false ∧
    ((((sampleBotC2.learn_response howStatement (some hiStatement) (some 1)).2).store.occurrenceOf
          howStatement.text
        = sampleBotC2.store.occurrenceOf howStatement.text + 1)
     ∧ (∀ prev, (some hiStatement : Option Statement) = some prev →
          sampleBotC2.store.linkCountOf howStatement.text prev.text + 1
            ≤ ((sampleBotC2.learn_response howStatement (some hiStatement) (some 1)).2).store.linkCountOf
                howStatement.text prev.text)) :=
  ⟨rfl, C5_learn_increments sampleBotC2 howStatement (some hiStatement) 1 rfl⟩

theorem get_response_occ_increment (bot : ChatBot) (s : Statement) (cid : Option Nat)
    (hro : bot.read_only = false) (hne : bot.allAdapters ≠ []) :
    bot.store.occurrenceOf (bot.preprocess s).text + 1
      ≤ ((bot.get_response s cid).2).store.occurrenceOf (bot.preprocess s).text := by
  obtain ⟨result, hsel⟩ := selectBest_isSome
    (((bot.resolveConversation cid).2).allAdapters.map
      (fun a => a ((bot.resolveConversation cid).2).store.statements (bot.preprocess s)))
    (by
      rw [resolve_allAdapters]
      intro hm
      exact hne (List.map_eq_nil_iff.mp hm))
  have hst := get_response_store bot s cid result hsel hro
  have hcongr : ((bot.get_response s cid).2).store.occurrenceOf (bot.preprocess s).text
      = ((((bot.resolveConversation cid).2).store.update
            (learnedStatement (bot.preprocess s)
              (((bot.resolveConversation cid).2).store.get_last_response_statement
                (bot.resolveConversation cid).1))).update result.response).occurrenceOf
          (bot.preprocess s).text :=
    occurrenceOf_congr _ _ hst _
  rw [hcongr]
  have h1 : bot.store.occurrenceOf (bot.preprocess s).text
      = ((bot.resolveConversation cid).2).store.occurrenceOf (bot.preprocess s).text :=
    (occurrenceOf_congr _ _ (resolve_statements bot cid) _).symm
  rw [h1]
  have h2 := occurrenceOf_update_self ((bot.resolveConversation cid).2).store
      (learnedStatement (bot.preprocess s)
        (((bot.resolveConversation cid).2).store.get_last_response_statement
          (bot.resolveConversation cid).1))
  rw [learnedStatement_text] at h2
  rw [← h2]
  exact occurrenceOf_update_ge _ _ _

/-- C8: an engine constructed without a read_only keyword argument has
`read_only = false`, and therefore `get_response` performs the learning
write: the stored occurrence count of the (preprocessed) input statement
increments. -/
theorem C8_default_not_readonly (bm : Strategy) (cw : Statement → Statement)
    (kwargs : Kwargs) (s : Statement) (cid : Option Nat)
    (h : kwargs.read_only = none) :
    (mkChatBot bm cw kwargs).read_only = false
    ∧ (mkChatBot bm cw kwargs).store.occurrenceOf
          ((mkChatBot bm cw kwargs).preprocess s).text + 1
        ≤ (((mkChatBot bm cw kwargs).get_response s cid).2).store.occurrenceOf
            ((mkChatBot bm cw kwargs).preprocess s).text := by
  have hro : (mkChatBot bm cw kwargs).read_only = false := by
    simp [mkChatBot, h]
  refine ⟨hro, ?_⟩
  exact get_response_occ_increment _ s cid hro (by simp [mkChatBot, ChatBot.allAdapters])

/-- Witness for C8: a concrete construction without the read_only keyword
learns from its first input. -/
theorem C8_default_not_readonly_witness :
    (sampleKwargs none).read_only = none ∧
    ((mkChatBot echoStrategy id (sampleKwargs none)).read_only = false
     ∧ (mkChatBot echoStrategy id (sampleKwargs none)).store.occurrenceOf
            ((mkChatBot echoStrategy id (sampleKwargs none)).preprocess hiStatement).text + 1
          ≤ (((mkChatBot echoStrategy id (sampleKwargs none)).get_response hiStatement none).2).store.occurrenceOf
              ((mkChatBot echoStrategy id (sampleKwargs none)).preprocess hiStatement).text) :=
  ⟨rfl, C8_default_not_readonly echoStrategy id (sampleKwargs none) hiStatement none rfl⟩

/-- C6: in a `get_response` call on a learning-enabled engine whose
resolved conversation exists and has a last appended statement `p` (as
fetched by `get_last_response_statement` before any appends of the current
turn), the statement learned as a response is the preprocessed input
statement, linked to `p`: the stored response link
`p → preprocessed input` strictly increases. -/
theorem C6_learns_input_against_prior_last (bot : ChatBot) (s : Statement)
    (cid : Nat) (c : Conversation) (p : Statement)
    (h0 : cid ≠ 0) (hc : bot.store.getConversation cid = some c)
    (hp : c.statements.getLast? = some p) (hro : bot.read_only = false)
    (hne : bot.allAdapters ≠ []) :
    bot.store.linkCountOf (bot.preprocess s).text p.text + 1
      ≤ ((bot.get_response s (some cid)).2).store.linkCountOf
          (bot.preprocess s).text p.text := by
  have hid : c.id = cid := by
    have hmem := List.find?_some hc
    simpa using hmem
  have hres_eq := resolve_found_eq bot cid c h0 hc
  obtain ⟨result, hsel⟩ := selectBest_isSome
    (((bot.resolveConversation (some cid)).2).allAdapters.map
      (fun a => a ((bot.resolveConversation (some cid)).2).store.statements (bot.preprocess s)))
    (by
      rw [resolve_allAdapters]
      intro hm
      exact hne (List.map_eq_nil_iff.mp hm))
  have hst := get_response_store bot s (some cid) result hsel hro
  rw [hres_eq] at hst
  have hlast : bot.store.get_last_response_statement c.id = some p := by
    unfold Store.get_last_response_statement
    rw [hid, hc]
    exact hp
  rw [show ((c.id, bot) : Nat × ChatBot).2 = bot from rfl,
      show ((c.id, bot) : Nat × ChatBot).1 = c.id from rfl] at hst
  rw [hlast] at hst
  have hcongr : ((bot.get_response s (some cid)).2).store.linkCountOf
        (bot.preprocess s).text p.text
      = (((bot.store.update (learnedStatement (bot.preprocess s) (some p))).update
          result.response)).linkCountOf (bot.preprocess s).text p.text :=
    linkCountOf_congr _ _ hst _ _
  rw [hcongr]
  have hn : 1 ≤ namesCount (learnedStatement (bot.preprocess s) (some p)).in_response_to p.text := by
    show 1 ≤ namesCount (upsertLink (bot.preprocess s).in_response_to p.text) p.text
    exact namesCount_upsertLink_self _ _
  have hstep := linkCountOf_update_self_ge bot.store
    (learnedStatement (bot.preprocess s) (some p)) p.text hn
  rw [learnedStatement_text] at hstep
  exact le_trans hstep (linkCountOf_update_ge _ _ _ _)

theorem gocd_read_only (bot : ChatBot) :
    ((bot.get_or_create_default_conversation).2).read_only = bot.read_only := by
  rcases gocd_snd bot with h | ⟨_, h⟩ <;> rw [h]
  rfl

theorem gocd_statements (bot : ChatBot) :
    ((bot.get_or_create_default_conversation).2).store.statements
      = bot.store.statements := by
  rcases gocd_snd bot with h | ⟨_, h⟩ <;> rw [h]
  rfl

theorem learn_response_ro_statements (bot : ChatBot) (s : Statement)
    (prev : Option Statement) (c : Option Nat) (h : bot.read_only = true) :
    ((bot.learn_response s prev c).2).store.statements = bot.store.statements := by
  cases c with
  | some cid => rw [learn_response_some_ro bot s prev cid h]
  | none =>
      have hro2 : (bot.get_or_create_default_conversation).2.read_only = true := by
        rw [gocd_read_only]
        exact h
      show (((bot.learn_response s prev none).2)).store.statements = _
      simp only [ChatBot.learn_response]
      simp [hro2]
      exact gocd_statements bot

/-- C1 counterexample: on a freshly constructed read-only engine, a single
`get_response` call changes store-observable state — it creates the default
conversation in the store (the conversation table grows from empty to one
entry), contradicting the claim that conversations are unchanged. -/
theorem C1_counterexample :
    sampleBotRO.read_only = true ∧
    sampleBotRO.store.conversations.length = 0 ∧
    ((sampleBotRO.get_response hiStatement none).2).store.conversations.length = 1 := by
  refine ⟨rfl, rfl, ?_⟩
  rfl

/-- C1 (amended): in read-only mode the corpus is frozen — `get_response`
never changes the stored statements (occurrence counts and response links),
and `learn_response` never writes the corpus either; the only possible
store change is the lazy creation of one empty default conversation when
none is cached yet, and once a default conversation is cached the whole
engine state is left unchanged by repeated calls. -/
theorem C1_readonly_frame (bot : ChatBot) (s : Statement) (cid : Option Nat)
    (h : bot.read_only = true) :
    ((bot.get_response s cid).2).store.statements = bot.store.statements
    ∧ (((bot.get_response s cid).2).store.conversations = bot.store.conversations
       ∨ ((bot.get_response s cid).2).store.conversations
           = bot.store.conversations ++ [{ id := bot.store.nextConvId, statements := [] }])
    ∧ (bot.default_conversation.isSome = true → (bot.get_response s cid).2 = bot)
    ∧ (∀ s2 prev c2, ((bot.learn_response s2 prev c2).2).store.statements
        = bot.store.statements) := by
  refine ⟨?_, ?_, ?_, ?_⟩
  · rw [get_response_readonly_snd bot s cid h]
    exact resolve_statements bot cid
  · rw [get_response_readonly_snd bot s cid h]
    exact resolve_conversations bot cid
  · intro hd
    rw [get_response_readonly_snd bot s cid h]
    exact resolve_of_default_isSome bot cid hd
  · intro s2 prev c2
    exact learn_response_ro_statements bot s2 prev c2 h

/-- Witness for C1 on a concrete read-only engine. -/
theorem C1_readonly_frame_witness :
    sampleBotRO.read_only = true ∧
    (((sampleBotRO.get_response hiStatement none).2).store.statements
        = sampleBotRO.store.statements
     ∧ (((sampleBotRO.get_response hiStatement none).2).store.conversations
          = sampleBotRO.store.conversations
        ∨ ((sampleBotRO.get_response hiStatement none).2).store.conversations
            = sampleBotRO.store.conversations
                ++ [{ id := sampleBotRO.store.nextConvId, statements := [] }])
     ∧ (sampleBotRO.default_conversation.isSome = true →
          (sampleBotRO.get_response hiStatement none).2 = sampleBotRO)
     ∧ (∀ s2 prev c2, ((sampleBotRO.learn_response s2 prev c2).2).store.statements
          = sampleBotRO.store.statements)) :=
  ⟨rfl, C1_readonly_frame sampleBotRO hiStatement none rfl⟩

/-- C2 counterexample: conversation id 5 has no conversation, yet after the
`get_response` call no conversation with id 5 exists either — no
conversation is created for the supplied id (the engine used the default
conversation instead), contradicting the claim. -/
theorem C2_counterexample :
    sampleBotC2.store.getConversation 5 = none ∧
    (sampleBotC2.get_response hiStatement (some 5)).1.isSome = true ∧
    ((sampleBotC2.get_response hiStatement (some 5)).2).store.getConversation 5 = none := by
  refine ⟨rfl, ?_, ?_⟩ <;> rfl

/-- C2 (amended): a `get_response` call whose supplied conversation id has
no existing conversation behaves exactly like a call with no conversation
id at all: the engine falls back to the default conversation (creating it
lazily if absent) and records the turn there; no conversation keyed by the
supplied id is created. -/
theorem C2_absent_id_falls_back (bot : ChatBot) (s : Statement) (cid : Nat)
    (h : bot.store.getConversation cid = none) :
    bot.get_response s (some cid) = bot.get_response s none := by
  unfold ChatBot.get_response
  rw [resolve_absent_eq bot cid h, resolve_none_eq]

/-- Witness for C2 at a concrete absent id. -/
theorem C2_absent_id_falls_back_witness :
    sampleBotC2.store.getConversation 7 = none ∧
    sampleBotC2.get_response hiStatement (some 7)
      = sampleBotC2.get_response hiStatement none :=
  ⟨rfl, C2_absent_id_falls_back sampleBotC2 hiStatement 7 rfl⟩

/-- C3 counterexample: on a read-only engine whose conversation 1 holds one
turn, `get_response` produces a response but appends neither the input nor
the response to the conversation — its turn sequence still has length 1,
contradicting the claim that in-memory conversation bookkeeping still
occurs. -/
theorem C3_counterexample :
    sampleBotConv.read_only = true ∧
    (sampleBotConv.get_response howStatement (some 1)).1.isSome = true ∧
    (sampleBotConv.store.getConversation 1).map (fun c => c.statements.length) = some 1 ∧
    (((sampleBotConv.get_response howStatement (some 1)).2).store.getConversation 1).map
        (fun c => c.statements.length) = some 1 := by
  refine ⟨rfl, ?_, rfl, ?_⟩ <;> rfl

theorem getConversation_withDefaultCreated (bot : ChatBot) (cid' : Nat)
    (c : Conversation) (hc : bot.store.getConversation cid' = some c) :
    (bot.withDefaultCreated).store.getConversation cid' = some c := by
  show ((bot.store.conversations
      ++ [({ id := bot.store.nextConvId, statements := [] } : Conversation)]).find?
      (fun cv => cv.id == cid')) = some c
  exact find?_append_some _ _ _ _ hc

/-- C3 (amended): in read-only mode `get_response` appends nothing to the
conversation: both the persistence and the conversation appends sit inside
the read-only guards, so every existing conversation's turn sequence is
left exactly as it was. -/
theorem C3_readonly_no_append (bot : ChatBot) (s : Statement) (cid : Option Nat)
    (h : bot.read_only = true) (cid' : Nat) (c : Conversation)
    (hc : bot.store.getConversation cid' = some c) :
    ((bot.get_response s cid).2).store.getConversation cid' = some c := by
  rw [get_response_readonly_snd bot s cid h]
  rcases resolve_snd bot cid with h2 | ⟨_, h2⟩
  · rw [h2]
    exact hc
  · rw [h2]
    exact getConversation_withDefaultCreated bot cid' c hc

/-- Witness for C3 on a concrete read-only engine with a populated
conversation. -/
theorem C3_readonly_no_append_witness :
    sampleBotConv.read_only = true ∧
    sampleBotConv.store.getConversation 1 = some { id := 1, statements := [hiStatement] } ∧
    ((sampleBotConv.get_response howStatement none).2).store.getConversation 1
      = some { id := 1, statements := [hiStatement] } :=
  ⟨rfl, rfl,
   C3_readonly_no_append sampleBotConv howStatement none rfl 1
     { id := 1, statements := [hiStatement] } rfl⟩

/-- Witness for C6: with conversation 1 holding one prior turn, a call
records the input as a response to that prior turn. -/
theorem C6_learns_input_against_prior_last_witness :
    (1 : Nat) ≠ 0 ∧
    sampleBotC6.store.getConversation 1 = some { id := 1, statements := [hiStatement] } ∧
    ([hiStatement].getLast? = some hiStatement) ∧
    sampleBotC6.read_only = false ∧
    sampleBotC6.allAdapters ≠ [] ∧
    sampleBotC6.store.linkCountOf (sampleBotC6.preprocess howStatement).text hiStatement.text + 1
      ≤ ((sampleBotC6.get_response howStatement (some 1)).2).store.linkCountOf
          (sampleBotC6.preprocess howStatement).text hiStatement.text :=
  ⟨by decide, rfl, rfl, rfl, by simp [sampleBotC6, ChatBot.allAdapters],
   C6_learns_input_against_prior_last sampleBotC6 howStatement 1
     { id := 1, statements := [hiStatement] } hiStatement (by decide) rfl rfl rfl
     (by simp [sampleBotC6, ChatBot.allAdapters])⟩

end Chatter
